import Mathlib

/-!
Shallow embedding of `src/app.component.ts` (AppComponent): the conversation
and form-state engine behind an LLM-driven generative-UI chat.

Modelling conventions:
- Angular signals become fields of an explicit `AppState` record; each handler
  is a pure function `AppState → … → AppState × outputs`.
- JavaScript objects used as insertion-ordered string maps
  (`activeFormData`, the `values` object) become association lists.
- The JavaScript falsy-coalescing `a || b` on optional strings is `jsOrStr`.
- `async` handlers that `await` the external agent client (`genAiService`)
  take the external call's outcome as an explicit parameter (`AgentResult`,
  `ConnectResult`) and additionally return what was handed to the client, so
  that "the client was not invoked" is expressible as `none` / `false`.
- `Date` timestamps on chat messages are an external clock effect and carry no
  information used by any handler; they are omitted from the embedding.
- The types `ChatMessage` and `A2UIComponent` are imported from
  `./types/a2ui.types`, which is not part of the visible source; their shape
  is modelled from the spec (§3: ChatTurn, UIComponentNode) and from how
  `app.component.ts` constructs and consumes them.
-/

/-- JavaScript `a || b` where `a` is an optional string: `undefined` and the
empty string are falsy, so both fall through to `b`. -/
def jsOrStr (a : Option String) (b : String) : String :=
  match a with
  | some s => if s = "" then b else s
  | none => b

/-- JavaScript `String.prototype.trim()`: the string with leading and
trailing whitespace removed, computed over the character list so that it is
kernel-reducible. -/
def jsTrim (s : String) : String :=
  String.mk
    (((s.toList.dropWhile Char.isWhitespace).reverse.dropWhile
        Char.isWhitespace).reverse)

/-- Lowercase hexadecimal digit, as produced by `JSON.stringify` for
`\u00XX` escapes. -/
def hexDigit (n : Nat) : Char :=
  if n < 10 then Char.ofNat (48 + n) else Char.ofNat (87 + n)

/-- Escape of a single character inside a JSON string literal, following
`JSON.stringify`. -/
def jsonEscapeChar (c : Char) : String :=
  if c = '"' then "\\\""
  else if c = '\\' then "\\\\"
  else if c = '\n' then "\\n"
  else if c = '\r' then "\\r"
  else if c = '\t' then "\\t"
  else if c = Char.ofNat 8 then "\\b"
  else if c = Char.ofNat 12 then "\\f"
  else if c.toNat < 32 then
    "\\u00" ++ String.singleton (hexDigit (c.toNat / 16))
      ++ String.singleton (hexDigit (c.toNat % 16))
  else String.singleton c

/-- JSON escaping of a whole string body. -/
def jsonEscape (s : String) : String :=
  String.join (s.toList.map jsonEscapeChar)

/-- JSON string literal: quoted, escaped. -/
def jsonQuote (s : String) : String :=
  "\"" ++ jsonEscape s ++ "\""

/-- Primitive prop values appearing in A2UI component trees (`props` maps
strings to strings, numbers or booleans, spec §3). -/
inductive JsonPrim where
  | str (s : String)
  | num (n : Int)
  | bool (b : Bool)
deriving Repr, DecidableEq

/-- Modelled from the spec: `A2UIComponent` (UIComponentNode, spec §3) from
`./types/a2ui.types`, absent from the visible source. A node is
`{ type, props?, children? }`; `props` and `children` are optional because the
literals in `app.component.ts` omit them (e.g. `{ type: 'divider' }`), and
`JSON.stringify` drops absent fields. -/
inductive A2UIComponent where
  | mk (ty : String) (props : Option (List (String × JsonPrim)))
       (children : Option (List A2UIComponent))

/-- Serialization of a primitive prop value, following `JSON.stringify`. -/
def stringifyPrim : JsonPrim → String
  | .str s => jsonQuote s
  | .num n => toString n
  | .bool b => if b then "true" else "false"

/-- Serialization of a `props` association list, following `JSON.stringify`
(compact, insertion order). -/
def stringifyProps : List (String × JsonPrim) → String
  | [] => ""
  | [p] => jsonQuote p.1 ++ ":" ++ stringifyPrim p.2
  | p :: q :: rest =>
      jsonQuote p.1 ++ ":" ++ stringifyPrim p.2 ++ "," ++ stringifyProps (q :: rest)

mutual

/-- Compact `JSON.stringify` of an A2UI component tree, as used on line 144 of
`app.component.ts` (`JSON.stringify(m.ui)`): keys in construction order
(`type`, `props`, `children`), absent optional fields omitted. -/
def stringifyComponent : A2UIComponent → String
  | .mk t ps cs =>
      "\x7b\"type\":" ++ jsonQuote t
        ++ (match ps with
            | none => ""
            | some l => ",\"props\":\x7b" ++ stringifyProps l ++ "\x7d")
        ++ (match cs with
            | none => ""
            | some l => ",\"children\":[" ++ stringifyChildren l ++ "]")
        ++ "\x7d"

/-- Comma-joined serialization of a sibling list. -/
def stringifyChildren : List A2UIComponent → String
  | [] => ""
  | [c] => stringifyComponent c
  | c :: c2 :: rest => stringifyComponent c ++ "," ++ stringifyChildren (c2 :: rest)

end

/-- Pretty-printed `JSON.stringify(values, null, 2)` of a string-to-string
record (line 199 of `app.component.ts`): two-space indent, keys in insertion
order. -/
def jsonStringifyPretty (kvs : List (String × String)) : String :=
  match kvs with
  | [] => "\x7b\x7d"
  | _ =>
      "\x7b\n"
        ++ String.intercalate ",\n"
             (kvs.map (fun p => "  " ++ jsonQuote p.1 ++ ": " ++ jsonQuote p.2))
        ++ "\n\x7d"

/-- Turn author (`role` of a `ChatMessage`). -/
inductive Role where
  | user
  | model
deriving Repr, DecidableEq

/-- Modelled from the spec: `ChatMessage` (ChatTurn, spec §3) from
`./types/a2ui.types`, absent from the visible source. A user turn carries
`content` (display text) and `promptContent` (technical text); a model turn
carries a `ui` tree. All payload fields are optional in the TS interface; the
`Date` timestamp is omitted (see the file header). -/
structure ChatMessage where
  role : Role
  content : Option String
  promptContent : Option String
  ui : Option A2UIComponent

/-- Live state of one rendered form field: `{ value, isValid }`
(line 29 of `app.component.ts`). -/
structure FieldState where
  value : String
  isValid : Bool
deriving Repr, DecidableEq

/-- Connection status signal: `'disconnected' | 'connected' | 'error'`
(line 25 of `app.component.ts`). -/
inductive ConnectionStatus where
  | disconnected
  | connected
  | error
deriving Repr, DecidableEq

/-- Signal state of the `AppComponent`: one field per Angular signal that the
modelled handlers read or write. `activeFormData` is an insertion-ordered
association list standing for the JS record `Record<string, FieldState>`. -/
structure AppState where
  messages : List ChatMessage
  userInput : String
  isLoading : Bool
  isSettingsOpen : Bool
  isConnecting : Bool
  connectionStatus : ConnectionStatus
  activeFormData : List (String × FieldState)

/-- Outcome of the external `genAiService.generateResponse` call: the promise
resolves with a UI tree or rejects. -/
inductive AgentResult where
  | success (ui : A2UIComponent)
  | failure

/-- Outcome of the external `genAiService.connect` call. -/
inductive ConnectResult where
  | success
  | failure
deriving Repr, DecidableEq

/-- One entry of the serialized history handed to the agent client:
`{role, parts: [{text}]}` with a single-element `parts` list, flattened to
the pair (role, text). -/
structure HistEntry where
  role : Role
  text : String
deriving Repr, DecidableEq

/-- Serialization of one chat message into a history entry (lines 142-145 of
`app.component.ts`): a user turn contributes `m.promptContent || m.content`,
a model turn contributes `JSON.stringify(m.ui)`. A model turn without a `ui`
tree never arises in the component; its image is fixed arbitrarily. -/
def serializeMessage (m : ChatMessage) : HistEntry :=
  { role := m.role
    text :=
      match m.role with
      | .user => jsOrStr m.promptContent (m.content.getD "")
      | .model => (m.ui.map stringifyComponent).getD "undefined" }

/-- Serialization of the whole conversation history, in order
(`this.messages().map(...)`, line 142 of `app.component.ts`). -/
def serializeHistory (msgs : List ChatMessage) : List HistEntry :=
  msgs.map serializeMessage

/-- Record of one invocation of the external agent client: the prompt text and
the serialized history passed to `generateResponse`. -/
def SendCall : Type := String × List HistEntry

/-- Embedding of `sendMessage(promptText?, displayText?)` (lines 135-166 of
`app.component.ts`). Returns the final state (after the promise settles and
the `finally` block runs) and the `SendCall` handed to the agent client, or
`none` when the guard on line 139 returned early. -/
def sendMessage (s : AppState) (promptText displayText : Option String)
    (r : AgentResult) : AppState × Option SendCall :=
  let textToSend := jsOrStr promptText s.userInput
  let textToDisplay := jsOrStr displayText textToSend
  if jsTrim textToSend = "" ∨ s.isLoading then (s, none)
  else
    let history := serializeHistory s.messages
    let s1 := { s with
      messages := s.messages
        ++ [({ role := .user, content := some textToDisplay,
               promptContent := some textToSend, ui := none } : ChatMessage)],
      userInput := "", isLoading := true }
    match r with
    | .success ui =>
        ({ s1 with
            messages := s1.messages
              ++ [({ role := .model, content := none, promptContent := none,
                     ui := some ui } : ChatMessage)],
            isLoading := false },
         some (textToSend, history))
    | .failure => ({ s1 with isLoading := false }, some (textToSend, history))

/-- Embedding of `handleFormChange` (lines 170-175 of `app.component.ts`):
the spread `{...current, [id]: v}` overwrites an existing key in place and
appends a new key at the end. -/
def handleFormChange (s : AppState) (id value : String) (isValid : Bool) :
    AppState :=
  { s with
    activeFormData :=
      if s.activeFormData.any (fun p => p.1 = id) then
        s.activeFormData.map
          (fun p => if p.1 = id then (id, FieldState.mk value isValid) else p)
      else s.activeFormData ++ [(id, FieldState.mk value isValid)] }

/-- Canned demo prompt for `demo_product` (lines 212-215). -/
def demoProductPrompt : String :=
  "Generate a stylish product card for high-end headphones with an image, price, and buy button."

/-- Canned demo prompt for `demo_list` (lines 216-219). -/
def demoListPrompt : String :=
  "Create a checklist of 5 things to do for a healthy morning routine."

/-- Canned demo prompt for `demo_servicenow` (lines 220-223). -/
def demoServicenowPrompt : String :=
  "Generate a Standard ServiceNow Change Request form in a SINGLE card. Include at least these 10 fields: Change Number (readonly), Requested By, State, Priority, Risk, Short Description, Description, Assignment Group, Planned Start Date, and Planned End Date. Use Dividers to separate sections like \"General\", \"Schedule\", and \"Planning\"."

/-- Prompt/display composition of `handleUiAction` for a non-`open_settings`
action (lines 183-224 of `app.component.ts`), as a pure function of the action
id and the captured form data: the PromptComposer of spec §4.4. -/
def composeActionPrompt (actionId : String)
    (currentFormData : List (String × FieldState)) : String × String :=
  let invalidFields :=
    (currentFormData.filter (fun p => !p.2.isValid)).map Prod.fst
  let prompt := "User triggered action: " ++ actionId ++ "."
  let display := "Triggered Action: " ++ actionId
  if currentFormData.length > 0 then
    let values := currentFormData.map (fun p => (p.1, p.2.value))
    let prompt := prompt ++ "\n\nSubmitted Form Data:\n"
      ++ jsonStringifyPretty values
    let display := display ++ " (Submitted Data)"
    if invalidFields.length > 0 then
      (prompt ++ "\n\nWarning: The following fields have validation errors: "
         ++ String.intercalate ", " invalidFields,
       display ++ " ⚠️ Invalid Fields")
    else (prompt, display)
  else
    if actionId = "demo_product" then
      (demoProductPrompt, "Show me a product demo")
    else if actionId = "demo_list" then
      (demoListPrompt, "Show me a list demo")
    else if actionId = "demo_servicenow" then
      (demoServicenowPrompt, "Create a Standard ServiceNow Change Request")
    else (prompt, display)

/-- Embedding of `handleUiAction(actionId)` (lines 177-228 of
`app.component.ts`): `open_settings` short-circuits to opening the settings
panel; otherwise the prompt/display pair is composed from the captured form
data, the form data is cleared exactly when it was non-empty (line 209), and
`sendMessage(prompt, display)` is invoked on the resulting state. -/
def handleUiAction (s : AppState) (actionId : String) (r : AgentResult) :
    AppState × Option SendCall :=
  if actionId = "open_settings" then
    ({ s with isSettingsOpen := true }, none)
  else
    let pd := composeActionPrompt actionId s.activeFormData
    let s1 :=
      if s.activeFormData.length > 0 then { s with activeFormData := [] }
      else s
    sendMessage s1 (some pd.1) (some pd.2) r

/-- Connection configuration collected from the settings form
(lines 94-100 of `app.component.ts`). -/
structure AgentConfig where
  endpoint : String
  api_key : String
  deployment_name : String
  api_version : String
  mcp_servers : String
deriving Repr, DecidableEq

/-- Client-side validity check of the settings form (`this.configForm.invalid`,
line 86): `Validators.required` on `endpoint`, `api_key`, `deployment_name`
and `api_version` fails exactly on the empty string; `mcp_servers` has no
validator. -/
def configInvalid (c : AgentConfig) : Bool :=
  c.endpoint = "" || c.api_key = "" || c.deployment_name = ""
    || c.api_version = ""

/-- Acknowledgement UI tree appended on successful connection
(lines 107-114 of `app.component.ts`). -/
def connectedUi (deployment_name : String) : A2UIComponent :=
  .mk "container"
    (some [("direction", .str "col"), ("gap", .str "sm")])
    (some
      [ .mk "badge"
          (some [("label", .str "Connected"), ("variant", .str "success")])
          none,
        .mk "text"
          (some [("content",
                  .str ("Successfully connected to " ++ deployment_name))])
          none ])

/-- Embedding of `connectAgent()` (lines 85-122 of `app.component.ts`).
The Boolean output records whether the external `genAiService.connect` was
invoked. When the form is invalid the handler returns before mutating any
signal (`markAllAsTouched` only flags the external form controls); otherwise
the final state reflects the try/catch/finally: success sets the status to
`connected`, closes the settings panel and appends the acknowledgement model
turn; failure sets the status to `error` and appends nothing; both clear
`isConnecting`. -/
def connectAgent (s : AppState) (form : AgentConfig) (r : ConnectResult) :
    AppState × Bool :=
  if configInvalid form then (s, false)
  else
    match r with
    | .success =>
        ({ s with
            isConnecting := false
            connectionStatus := .connected
            isSettingsOpen := false
            messages := s.messages
              ++ [({ role := .model, content := none, promptContent := none,
                     ui := some (connectedUi form.deployment_name) }
                    : ChatMessage)] },
         true)
    | .failure =>
        ({ s with isConnecting := false, connectionStatus := .error }, true)

/-- Greeting UI tree appended by the constructor (lines 42-71 of
`app.component.ts`). -/
def greetingUi : A2UIComponent :=
  .mk "container"
    (some [("direction", .str "col"), ("gap", .str "md")])
    (some
      [ .mk "card"
          (some [("variant", .str "filled")])
          (some
            [ .mk "container"
                (some [("direction", .str "row"), ("align", .str "center"),
                       ("gap", .str "md")])
                (some
                  [ .mk "text"
                      (some [("content", .str "✨"), ("size", .str "xl")])
                      none,
                    .mk "text"
                      (some [("content", .str "A2UI Interface Ready"),
                             ("size", .str "lg"), ("bold", .bool true),
                             ("color", .str "text-white")])
                      none ]),
              .mk "divider" none none,
              .mk "text"
                (some [("content",
                        .str "Please configure your Azure OpenAI settings to begin."),
                       ("size", .str "md")])
                none,
              .mk "container"
                (some [("direction", .str "row"), ("gap", .str "sm")])
                (some
                  [ .mk "button"
                      (some [("label", .str "Configure Agent"),
                             ("action", .str "open_settings"),
                             ("variant", .str "primary")])
                      none,
                    .mk "button"
                      (some [("label", .str "ServiceNow Demo"),
                             ("action", .str "demo_servicenow"),
                             ("variant", .str "secondary")])
                      none ]) ]) ])

/-- Model turn holding the greeting tree, as appended by the constructor via
`addSystemMessage` (lines 230-236 of `app.component.ts`). -/
def greetingMessage : ChatMessage :=
  { role := .model, content := none, promptContent := none,
    ui := some greetingUi }

/-- Component state right after the constructor runs: every signal at its
declared initial value (lines 20-29 of `app.component.ts`) and the greeting
model turn appended (lines 40-71). -/
def initialState : AppState :=
  { messages := [greetingMessage]
    userInput := ""
    isLoading := false
    isSettingsOpen := false
    isConnecting := false
    connectionStatus := .disconnected
    activeFormData := [] }

/-- Component state with the signals at their declared initial values and no
messages at all: a convenient base point for concrete instantiations. -/
def emptyState : AppState :=
  { messages := []
    userInput := ""
    isLoading := false
    isSettingsOpen := false
    isConnecting := false
    connectionStatus := .disconnected
    activeFormData := [] }

/-- Helper: `sendMessage` never touches the `activeFormData` signal — neither
the guard's early return nor either promise outcome writes it. -/
theorem sendMessage_preserves_activeFormData (s : AppState)
    (pt dt : Option String) (r : AgentResult) :
    (sendMessage s pt dt r).1.activeFormData = s.activeFormData := by
  simp only [sendMessage]
  split
  · rfl
  · cases r <;> rfl

/-- C1: for every actionId other than "open_settings", dispatching the action
through `handleUiAction` leaves `activeFormData` empty immediately afterwards,
regardless of its prior contents: a non-empty map is reset as part of the
dispatch (line 209) and an empty map stays empty, so no field value carries
over into a later dispatch. -/
theorem handleUiAction_clears_activeFormData (s : AppState) (actionId : String)
    (r : AgentResult) (h : actionId ≠ "open_settings") :
    (handleUiAction s actionId r).1.activeFormData = [] := by
  simp only [handleUiAction, if_neg h]
  split
  · rw [sendMessage_preserves_activeFormData]
  · rename_i hlen
    rw [sendMessage_preserves_activeFormData]
    exact List.length_eq_zero.mp (by omega)

/-- Witness for C1 at a concrete dispatch with non-empty form data. -/
theorem handleUiAction_clears_activeFormData_witness :
    (handleUiAction
        { emptyState with
            activeFormData := [("name", FieldState.mk "foo" true)] }
        "submit_order" AgentResult.failure).1.activeFormData = [] :=
  handleUiAction_clears_activeFormData _ "submit_order" _ (by decide)

/-- C4: a `sendMessage` call whose resolved prompt is empty or whitespace-only,
or that arrives while `isLoading` is already set, is a complete no-op: no turn
is appended, the agent client is not invoked, and the state is unchanged. -/
theorem sendMessage_guard_noop (s : AppState) (pt dt : Option String)
    (r : AgentResult)
    (h : jsTrim (jsOrStr pt s.userInput) = "" ∨ s.isLoading = true) :
    sendMessage s pt dt r = (s, none) := by
  simp only [sendMessage]
  split
  · rfl
  · rename_i hn
    exact absurd h hn

/-- Witness for C4: a whitespace-only prompt on the idle empty state. -/
theorem sendMessage_guard_noop_witness :
    sendMessage emptyState (some "   ") none AgentResult.failure
      = (emptyState, none) :=
  sendMessage_guard_noop emptyState (some "   ") none AgentResult.failure
    (Or.inl (by decide))

/-- C6: dispatching "open_settings" only opens the settings surface: no prompt
is produced, `sendMessage` is not invoked, no turn is appended, and
`activeFormData` is untouched. -/
theorem handleUiAction_open_settings (s : AppState) (r : AgentResult) :
    handleUiAction s "open_settings" r
        = ({ s with isSettingsOpen := true }, none)
      ∧ (handleUiAction s "open_settings" r).1.activeFormData
          = s.activeFormData
      ∧ (handleUiAction s "open_settings" r).1.messages = s.messages := by
  refine ⟨?_, ?_, ?_⟩ <;> simp [handleUiAction]

/-- C2: for a dispatch with non-empty form data, the composed prompt is
"User triggered action: {actionId}." followed by the pretty-printed id→value
mapping, the invalid-field ids are the entries whose isValid flag is false in
map-insertion order, a warning line listing them is appended exactly when at
least one exists, and the display text is "Triggered Action: {actionId}" plus
the submitted-data marker, plus the invalid-fields marker exactly when the
warning was appended. -/
theorem composeActionPrompt_submitted_format (actionId : String)
    (fd : List (String × FieldState)) (h : fd ≠ []) :
    (composeActionPrompt actionId fd).1
        = "User triggered action: " ++ actionId ++ "."
          ++ "\n\nSubmitted Form Data:\n"
          ++ jsonStringifyPretty (fd.map (fun p => (p.1, p.2.value)))
          ++ (if (fd.filter (fun p => !p.2.isValid)).map Prod.fst = [] then ""
              else "\n\nWarning: The following fields have validation errors: "
                ++ String.intercalate ", "
                     ((fd.filter (fun p => !p.2.isValid)).map Prod.fst))
      ∧ (composeActionPrompt actionId fd).2
        = "Triggered Action: " ++ actionId ++ " (Submitted Data)"
          ++ (if (fd.filter (fun p => !p.2.isValid)).map Prod.fst = [] then ""
              else " ⚠️ Invalid Fields") := by
  have hlen : 0 < fd.length := List.length_pos.mpr h
  by_cases hinv : (fd.filter (fun p => !p.2.isValid)).map Prod.fst = []
  · constructor <;>
      simp [composeActionPrompt, hlen, hinv, List.map_eq_nil_iff.mp hinv]
  · have hpos : 0 < (fd.filter (fun p => !p.2.isValid)).length := by
      rw [List.length_pos]
      intro hnil
      exact hinv (by rw [hnil]; rfl)
    constructor <;>
      simp [composeActionPrompt, hlen, hinv, hpos, String.append_assoc]

/-- Witness for C2 at a concrete two-field form with one invalid field
(spec Scenarios 1 and 2 combined). -/
theorem composeActionPrompt_submitted_format_witness :
    (composeActionPrompt "submit_order"
        [("name", FieldState.mk "foo" true),
         ("email", FieldState.mk "bad" false)]).1
        = "User triggered action: " ++ "submit_order" ++ "."
          ++ "\n\nSubmitted Form Data:\n"
          ++ jsonStringifyPretty
               ([("name", FieldState.mk "foo" true),
                 ("email", FieldState.mk "bad" false)].map
                  (fun p => (p.1, p.2.value)))
          ++ (if ([("name", FieldState.mk "foo" true),
                   ("email", FieldState.mk "bad" false)].filter
                    (fun p => !p.2.isValid)).map Prod.fst = [] then ""
              else "\n\nWarning: The following fields have validation errors: "
                ++ String.intercalate ", "
                     (([("name", FieldState.mk "foo" true),
                        ("email", FieldState.mk "bad" false)].filter
                         (fun p => !p.2.isValid)).map Prod.fst))
      ∧ (composeActionPrompt "submit_order"
          [("name", FieldState.mk "foo" true),
           ("email", FieldState.mk "bad" false)]).2
        = "Triggered Action: " ++ "submit_order" ++ " (Submitted Data)"
          ++ (if ([("name", FieldState.mk "foo" true),
                   ("email", FieldState.mk "bad" false)].filter
                    (fun p => !p.2.isValid)).map Prod.fst = [] then ""
              else " ⚠️ Invalid Fields") :=
  composeActionPrompt_submitted_format "submit_order"
    [("name", FieldState.mk "foo" true), ("email", FieldState.mk "bad" false)]
    (by decide)

/-- C3: a `sendMessage` call that passes its guard hands the agent client the
serialization of exactly the turns that existed before the new user turn was
appended, in order; a user turn contributes its technical `promptContent`
(falling back to `content` when it is absent), and a model turn contributes
the JSON textual serialization of its UI tree. The last hypothesis records the
reachable-state invariant that no appended user turn carries an empty
`promptContent` (the guard forbids an empty technical prompt). -/
theorem sendMessage_serialized_history (s : AppState) (pt dt : Option String)
    (r : AgentResult)
    (h1 : jsTrim (jsOrStr pt s.userInput) ≠ "") (h2 : s.isLoading = false)
    (h3 : ∀ m ∈ s.messages, m.role = Role.user → m.promptContent ≠ some "") :
    (sendMessage s pt dt r).2
        = some (jsOrStr pt s.userInput, s.messages.map serializeMessage)
      ∧ ∀ m ∈ s.messages,
          (m.role = Role.user →
            (∀ p, m.promptContent = some p
              → serializeMessage m = HistEntry.mk Role.user p)
            ∧ (m.promptContent = none
              → serializeMessage m = HistEntry.mk Role.user (m.content.getD "")))
          ∧ (∀ u, m.role = Role.model → m.ui = some u
              → serializeMessage m
                  = HistEntry.mk Role.model (stringifyComponent u)) := by
  constructor
  · cases r <;> simp [sendMessage, h1, h2, serializeHistory]
  · intro m hm
    constructor
    · intro hrole
      constructor
      · intro p hp
        have hne : p ≠ "" := by
          intro hcontra
          exact h3 m hm hrole (by rw [hp, hcontra])
        simp [serializeMessage, hrole, hp, jsOrStr, hne]
      · intro hpc
        simp [serializeMessage, hrole, hpc, jsOrStr]
    · intro u hrole hui
      simp [serializeMessage, hrole, hui]

/-- Witness for C3: the first send on the freshly constructed state hands over
the one-entry serialization of the greeting model turn. -/
theorem sendMessage_serialized_history_witness :
    (sendMessage initialState (some "hello") none AgentResult.failure).2
      = some (jsOrStr (some "hello") initialState.userInput,
              initialState.messages.map serializeMessage) :=
  (sendMessage_serialized_history initialState (some "hello") none
      AgentResult.failure (by decide) rfl
      (by
        intro m hm hr
        simp only [initialState, List.mem_singleton] at hm
        rw [hm] at hr
        simp [greetingMessage] at hr)).1

/-- C5: when the agent client rejects `generateResponse`, the session returns
to idle (`isLoading` cleared by the `finally` block), the user turn appended
before the call remains in the history unchanged, and no model turn and no
error turn is appended, so the history has exactly one more turn than before
the call. -/
theorem sendMessage_failure_keeps_user_turn (s : AppState)
    (pt dt : Option String)
    (h1 : jsTrim (jsOrStr pt s.userInput) ≠ "") (h2 : s.isLoading = false) :
    (sendMessage s pt dt AgentResult.failure).1.isLoading = false
      ∧ (sendMessage s pt dt AgentResult.failure).1.messages
          = s.messages
            ++ [({ role := .user,
                   content := some (jsOrStr dt (jsOrStr pt s.userInput)),
                   promptContent := some (jsOrStr pt s.userInput),
                   ui := none } : ChatMessage)]
      ∧ (sendMessage s pt dt AgentResult.failure).1.messages.length
          = s.messages.length + 1 := by
  refine ⟨?_, ?_, ?_⟩ <;> simp [sendMessage, h1, h2]

/-- Witness for C5 at a concrete failing send on the empty idle state. -/
theorem sendMessage_failure_keeps_user_turn_witness :
    (sendMessage emptyState (some "hi") (some "Hello")
          AgentResult.failure).1.isLoading = false
      ∧ (sendMessage emptyState (some "hi") (some "Hello")
            AgentResult.failure).1.messages
          = emptyState.messages
            ++ [({ role := .user,
                   content := some (jsOrStr (some "Hello")
                     (jsOrStr (some "hi") emptyState.userInput)),
                   promptContent := some (jsOrStr (some "hi")
                     emptyState.userInput),
                   ui := none } : ChatMessage)]
      ∧ (sendMessage emptyState (some "hi") (some "Hello")
            AgentResult.failure).1.messages.length
          = emptyState.messages.length + 1 :=
  sendMessage_failure_keeps_user_turn emptyState (some "hi") (some "Hello")
    (by decide) rfl

/-- Model acknowledgement turn appended on successful connection
(lines 107-114 of `app.component.ts`). -/
def connectedMessage (deployment_name : String) : ChatMessage :=
  { role := .model, content := none, promptContent := none,
    ui := some (connectedUi deployment_name) }

/-- C7: when any of endpoint, api_key, deployment_name or api_version is
empty, `connectAgent` refuses before any external call — the client's connect
is not invoked, the connection status is unchanged, and no turn is appended;
on external success it transitions to connected and appends exactly one model
acknowledgement turn; on external failure it transitions to error and appends
no turn. -/
theorem connectAgent_validation_and_transitions (s : AppState)
    (form : AgentConfig) :
    (configInvalid form = true →
        ∀ r, connectAgent s form r = (s, false))
      ∧ (configInvalid form = false →
          connectAgent s form ConnectResult.success
            = ({ s with
                  isConnecting := false
                  connectionStatus := .connected
                  isSettingsOpen := false
                  messages := s.messages
                    ++ [connectedMessage form.deployment_name] }, true))
      ∧ (configInvalid form = false →
          connectAgent s form ConnectResult.failure
            = ({ s with
                  isConnecting := false
                  connectionStatus := .error }, true)) := by
  refine ⟨?_, ?_, ?_⟩
  · intro h r
    simp [connectAgent, h]
  · intro h
    simp [connectAgent, h, connectedMessage]
  · intro h
    simp [connectAgent, h]

/-- Witness for C7: an empty endpoint is refused with the state unchanged
(spec Scenario 4), and a valid config whose external connect fails ends in
the error status with no turn appended. -/
theorem connectAgent_validation_and_transitions_witness :
    connectAgent emptyState (AgentConfig.mk "" "k" "d" "v" "")
        ConnectResult.success
      = (emptyState, false)
      ∧ connectAgent emptyState (AgentConfig.mk "e" "k" "d" "v" "")
          ConnectResult.failure
        = ({ emptyState with
              isConnecting := false
              connectionStatus := .error }, true) :=
  ⟨(connectAgent_validation_and_transitions emptyState
      (AgentConfig.mk "" "k" "d" "v" "")).1 (by decide) ConnectResult.success,
   (connectAgent_validation_and_transitions emptyState
      (AgentConfig.mk "e" "k" "d" "v" "")).2.2 (by decide)⟩

/-- C8: history serialization is deterministic — two serializations of the
same sequence of turns produce identical context sequences, entry for entry.
In the embedding `serializeHistory` is a pure function of the turn list, so
equal inputs give entrywise-equal outputs. -/
theorem serializeHistory_deterministic (h1 h2 : List ChatMessage)
    (heq : h1 = h2) :
    (serializeHistory h1).length = (serializeHistory h2).length
      ∧ ∀ (i : Nat) (hi : i < (serializeHistory h1).length)
          (hi2 : i < (serializeHistory h2).length),
          (serializeHistory h1).get ⟨i, hi⟩
            = (serializeHistory h2).get ⟨i, hi2⟩ := by
  subst heq
  exact ⟨rfl, fun i hi hi2 => rfl⟩

/-- Witness for C8 at the concrete one-turn greeting history. -/
theorem serializeHistory_deterministic_witness :
    (serializeHistory [greetingMessage]).length
        = (serializeHistory [greetingMessage]).length
      ∧ ∀ (i : Nat) (hi : i < (serializeHistory [greetingMessage]).length)
          (hi2 : i < (serializeHistory [greetingMessage]).length),
          (serializeHistory [greetingMessage]).get ⟨i, hi⟩
            = (serializeHistory [greetingMessage]).get ⟨i, hi2⟩ :=
  serializeHistory_deterministic [greetingMessage] [greetingMessage] rfl

/-- C9: dispatching a non-"open_settings" action while a send is in flight
clears the non-empty form data, but the single-flight guard rejects the
subsequent send: zero turns are appended and the agent client is not invoked,
so the submitted form data is discarded without any prompt carrying it. -/
theorem handleUiAction_while_sending (s : AppState) (actionId : String)
    (r : AgentResult)
    (h1 : actionId ≠ "open_settings") (h2 : s.isLoading = true)
    (h3 : s.activeFormData ≠ []) :
    (handleUiAction s actionId r).1.activeFormData = []
      ∧ (handleUiAction s actionId r).1.messages = s.messages
      ∧ (handleUiAction s actionId r).2 = none := by
  have hlen : 0 < s.activeFormData.length := List.length_pos.mpr h3
  refine ⟨?_, ?_, ?_⟩ <;>
    simp [handleUiAction, sendMessage, h1, h2, hlen]

/-- Witness for C9 at a concrete in-flight state with one form field. -/
theorem handleUiAction_while_sending_witness :
    (handleUiAction
        { emptyState with
            isLoading := true
            activeFormData := [("a", FieldState.mk "1" true)] }
        "submit_order" AgentResult.failure).1.activeFormData = []
      ∧ (handleUiAction
          { emptyState with
              isLoading := true
              activeFormData := [("a", FieldState.mk "1" true)] }
          "submit_order" AgentResult.failure).1.messages
        = ({ emptyState with
              isLoading := true
              activeFormData := [("a", FieldState.mk "1" true)] }
            : AppState).messages
      ∧ (handleUiAction
          { emptyState with
              isLoading := true
              activeFormData := [("a", FieldState.mk "1" true)] }
          "submit_order" AgentResult.failure).2 = none :=
  handleUiAction_while_sending _ "submit_order" AgentResult.failure
    (by decide) rfl (by decide)

/-- C10: the constructor appends exactly one model turn — the greeting UI
tree — before any interaction, so the history is non-empty from the start and
the history serialized for the very first guarded `sendMessage` is exactly one
model entry holding the JSON serialization of the greeting tree. -/
theorem initial_history_single_greeting (pt dt : Option String)
    (r : AgentResult)
    (h : jsTrim (jsOrStr pt initialState.userInput) ≠ "") :
    initialState.messages = [greetingMessage]
      ∧ greetingMessage.role = Role.model
      ∧ serializeHistory initialState.messages
          = [HistEntry.mk Role.model (stringifyComponent greetingUi)]
      ∧ (sendMessage initialState pt dt r).2
          = some (jsOrStr pt initialState.userInput,
                  [HistEntry.mk Role.model (stringifyComponent greetingUi)]) := by
  have h2 : jsTrim (jsOrStr pt "") ≠ "" := h
  refine ⟨rfl, rfl, rfl, ?_⟩
  cases r <;>
    simp [sendMessage, h2, initialState, serializeHistory, serializeMessage,
      greetingMessage]

/-- Witness for C10 at the concrete first send "hi". -/
theorem initial_history_single_greeting_witness :
    initialState.messages = [greetingMessage]
      ∧ greetingMessage.role = Role.model
      ∧ serializeHistory initialState.messages
          = [HistEntry.mk Role.model (stringifyComponent greetingUi)]
      ∧ (sendMessage initialState (some "hi") none AgentResult.failure).2
          = some (jsOrStr (some "hi") initialState.userInput,
                  [HistEntry.mk Role.model (stringifyComponent greetingUi)]) :=
  initial_history_single_greeting (some "hi") none AgentResult.failure
    (by decide)
